import Mathlib

/-!
Verification of the footy_score scoring/validation/repository logic.

Shallow embedding of the Python sources:
  app/core/scoring.py, app/core/validators.py, app/core/models.py,
  app/core/repos/matches_repo.py, app/core/repos/players_repo.py,
  app/services/match_service.py.

Modelling conventions:
  * Python values that may be `None` are modelled as `Option _`.
  * Numeric columns/fields are modelled as `Option Int` (the claims only
    quantify over integer-or-missing values; `int(x)` on a non-int raises and
    every call site catches that case via `_safe_int`/`_is_non_negative_int`,
    which we embed directly on `Option Int`).
  * The SQLAlchemy database is modelled as an explicit list of rows; a query
    is a filter over that list.  SQL `ORDER BY` clauses are not modelled: the
    claims below are about membership of the result sets, never about order.
  * `datetime.date` is modelled by `PyDate` (lexicographic year/month/day
    order, as in Python); `date.today()` becomes an explicit `today`
    parameter, so theorems hold for every value of the clock.
-/

namespace FootyScore

/-- Python `datetime.date`: compared lexicographically on (year, month, day);
`str(d)` prints ISO `YYYY-MM-DD`. -/
structure PyDate where
  year : Int
  month : Int
  day : Int
deriving DecidableEq

/-- Python `d1 < d2` on dates (lexicographic). -/
def PyDate.ltb (a b : PyDate) : Bool :=
  (a.year < b.year) ||
  (a.year == b.year && ((a.month < b.month) ||
    (a.month == b.month && a.day < b.day)))

/-- Zero-pad a non-negative integer to at least `w` digits (Python date printing). -/
def padInt (w : Nat) (n : Int) : String :=
  let s := toString n
  if s.length < w then (String.mk (List.replicate (w - s.length) '0')) ++ s else s

/-- `str(d)` for a Python date: ISO format. -/
def PyDate.repr (d : PyDate) : String :=
  padInt 4 d.year ++ "-" ++ padInt 2 d.month ++ "-" ++ padInt 2 d.day

/-- Value stored in a `ValidationIssue.context` dict (Python heterogeneous dict values). -/
inductive PyVal where
  | vNone : PyVal
  | vInt (n : Int) : PyVal
  | vStr (s : String) : PyVal
deriving DecidableEq

/-- Render an `Option Int` the way a Python f-string renders the raw attribute
(`None` prints as `None`). -/
def pyReprOptInt (x : Option Int) : String :=
  match x with
  | none => "None"
  | some n => toString n

def pyValOfOptInt (x : Option Int) : PyVal :=
  match x with
  | none => PyVal.vNone
  | some n => PyVal.vInt n

/-- Python `s.strip()`: drop leading and trailing whitespace.  Implemented
structurally on the character list so that it evaluates in the kernel. -/
def pyStrip (s : String) : String :=
  String.mk (((s.data.dropWhile Char.isWhitespace).reverse.dropWhile Char.isWhitespace).reverse)

/-- Python `s.lower()` (ASCII case folding suffices for the data at hand). -/
def pyLower (s : String) : String :=
  String.mk (s.data.map Char.toLower)

/-- Python `s[:n]` on code points. -/
def pyTake (s : String) (n : Nat) : String :=
  String.mk (s.data.take n)

def charListLt : List Char → List Char → Bool
  | [], [] => false
  | [], _ :: _ => true
  | _ :: _, [] => false
  | a :: as, b :: bs => if a < b then true else if b < a then false else charListLt as bs

/-- Python `a < b` on strings: code-point lexicographic order. -/
def pyStrLt (a b : String) : Bool := charListLt a.data b.data

/-- `Severity = Literal["error", "warning"]` (validators.py line 11). -/
inductive Severity where
  | error : Severity
  | warning : Severity
deriving DecidableEq

/-- `ValidationIssue` dataclass (validators.py lines 40-52). -/
structure ValidationIssue where
  code : String
  message : String
  severity : Severity := Severity.error
  field_name : Option String := none
  context : List (String × PyVal) := []
deriving DecidableEq

def is_warning (i : ValidationIssue) : Bool :=
  match i.severity with
  | Severity.warning => true
  | Severity.error => false

def is_error (i : ValidationIssue) : Bool := !(is_warning i)

/-- `ValidationIssue.__str__` (validators.py lines 48-52). -/
def issue_str (i : ValidationIssue) : String :=
  let pre := if is_warning i then "⚠️" else "❌"
  match i.field_name with
  | some f => pre ++ " [" ++ i.code ++ "] " ++ f ++ ": " ++ i.message
  | none => pre ++ " [" ++ i.code ++ "] " ++ i.message

/-- `issues_as_strings` (validators.py lines 440-441). -/
def issues_as_strings (l : List ValidationIssue) : List String := l.map issue_str

/-- ORM `Quarter` row (models.py lines 90-111); every numeric column may hold
`None` before service-side coercion. -/
structure Quarter where
  q : Option Int := none
  home_goals : Option Int := none
  home_behinds : Option Int := none
  home_points : Option Int := none
  away_goals : Option Int := none
  away_behinds : Option Int := none
  away_points : Option Int := none
deriving DecidableEq

/-- ORM `PlayerStat` row (models.py lines 119-143).  Validators accept both ORM
rows and dicts with the same keys; both are this record. -/
structure PlayerStat where
  player_id : Option Int := none
  player_name : Option String := none
  goals : Option Int := none
  behinds : Option Int := none
  points : Option Int := none
deriving DecidableEq

/-- ORM `Match` row (models.py lines 46-82) with its child collections. -/
structure Match where
  id : Option Int := none
  season_id : Option String := none
  date : Option PyDate := none
  venue : Option String := none
  home_club : Option String := none
  away_club : Option String := none
  total_home_points : Option Int := none
  total_away_points : Option Int := none
  quarters : List Quarter := []
  player_stats : List PlayerStat := []
deriving DecidableEq

/-- ORM `Player` row (models.py lines 24-38); unique constraint on (club, name). -/
structure Player where
  id : Int
  name : String
  club : String
  active : Bool
deriving DecidableEq

/-- A user-context dict (`{"is_admin": ..., "team_name": ...}`); a missing dict
is `Option.none` at the use sites. -/
structure UserCtx where
  is_admin : Bool := false
  team_name : Option String := none
deriving DecidableEq

/-- `Literal["home", "away"]`. -/
inductive Side where
  | home : Side
  | away : Side
deriving DecidableEq

-- =========================
-- scoring.py
-- =========================

/-- Python `x or 0` on an int-or-None value. -/
def pyOrZero (x : Option Int) : Int :=
  match x with
  | none => 0
  | some n => if n == 0 then 0 else n

/-- `points_of` (scoring.py lines 9-13): `g = int(goals or 0); b = int(behinds or 0); return g * 6 + b`. -/
def points_of (goals behinds : Int) : Int :=
  let g := pyOrZero (some goals)
  let b := pyOrZero (some behinds)
  g * 6 + b

theorem pyOrZero_some (n : Int) : pyOrZero (some n) = n := by
  unfold pyOrZero
  by_cases h : n = 0 <;> simp [h]

theorem points_of_eq (g b : Int) : points_of g b = g * 6 + b := by
  unfold points_of
  rw [pyOrZero_some, pyOrZero_some]

/-- `TeamQuarter` (scoring.py lines 22-26). -/
structure TeamQuarter where
  goals : Int
  behinds : Int
  points : Int
deriving DecidableEq

/-- `sum_quarters_team` (scoring.py lines 28-33). -/
def sum_quarters_team (qs : List TeamQuarter) : Int × Int × Int :=
  ((qs.map TeamQuarter.goals).sum,
   (qs.map TeamQuarter.behinds).sum,
   (qs.map TeamQuarter.points).sum)

/-- Result of `sum_quarters_match`: the dict `{"home": ..., "away": ...}`. -/
structure MatchSums where
  home : Int × Int × Int
  away : Int × Int × Int
deriving DecidableEq

/-- `sum_quarters_match` (scoring.py lines 35-43). -/
def sum_quarters_match (quarters : List Quarter) : MatchSums :=
  let home_q := quarters.map (fun q =>
    TeamQuarter.mk (pyOrZero q.home_goals) (pyOrZero q.home_behinds) (pyOrZero q.home_points))
  let away_q := quarters.map (fun q =>
    TeamQuarter.mk (pyOrZero q.away_goals) (pyOrZero q.away_behinds) (pyOrZero q.away_points))
  { home := sum_quarters_team home_q, away := sum_quarters_team away_q }

/-- `compute_totals_from_quarters` (scoring.py lines 138-149), made functional. -/
def compute_totals_from_quarters (m : Match) : Match :=
  if m.quarters.isEmpty then m
  else
    let sums := sum_quarters_match m.quarters
    { m with total_home_points := some sums.home.2.2,
             total_away_points := some sums.away.2.2 }

-- =========================
-- validators.py: configuration and helpers
-- =========================

def MAX_GOALS_PER_QUARTER : Option Int := some 20

def MAX_BEHINDS_PER_QUARTER : Option Int := some 25

def MAX_POINTS_PER_QUARTER : Option Int :=
  some (6 * (MAX_GOALS_PER_QUARTER.getD 30) + MAX_BEHINDS_PER_QUARTER.getD 30)

def DISALLOW_FUTURE_DATES : Bool := false

def WARN_IF_SEASON_MISMATCH_WITH_DATE : Bool := true

def EXPECT_4_QUARTERS : Bool := true

def EXPECTED_QUART_NUMBERS : List Int := [1, 2, 3, 4]

/-- `_non_empty_str` (validators.py lines 59-60): a str whose strip is non-empty. -/
def pyNonEmptyStr (s : Option String) : Bool :=
  match s with
  | some s => pyStrip s ≠ ""
  | none => false

/-- `_is_non_negative_int` (validators.py lines 62-66) on int-or-None values:
`int(None)` raises, giving `False`. -/
def isNonNegInt (x : Option Int) : Bool :=
  match x with
  | some n => decide (0 ≤ n)
  | none => false

/-- `_safe_int` (validators.py lines 68-72) on int-or-None values. -/
def safeInt (x : Option Int) (default : Int) : Int := x.getD default

/-- `_declared_points` (validators.py lines 74-93). -/
def declared_points (m : Match) (team_side : Option Side) (team_name : Option String) : Option Int :=
  match team_side with
  | some Side.home => some (safeInt m.total_home_points 0)
  | some Side.away => some (safeInt m.total_away_points 0)
  | none =>
    if pyNonEmptyStr team_name then
      if m.home_club == team_name then some (safeInt m.total_home_points 0)
      else if m.away_club == team_name then some (safeInt m.total_away_points 0)
      else none
    else none

-- =========================
-- validators.py: structural passes
-- =========================

def season_format_issue (s : String) : ValidationIssue :=
  { code := "match.season_id.format", message := "Format de saison attendu: \x27YYYY\x27.",
    severity := Severity.warning, field_name := some "season_id",
    context := [("value", PyVal.vStr s)] }

def venue_too_long_issue (n : Nat) : ValidationIssue :=
  { code := "match.venue.too_long", message := "Le nom du lieu est anormalement long (>120).",
    severity := Severity.warning, field_name := some "venue",
    context := [("len", PyVal.vInt n)] }

/-- `validate_match_structure` (validators.py lines 100-136). -/
def validate_match_structure (m : Match) : List ValidationIssue :=
  (if !pyNonEmptyStr m.home_club then
    [{ code := "match.home_club.missing", message := "Le club domicile est manquant.",
       severity := Severity.error, field_name := some "home_club" }] else [])
  ++ (if !pyNonEmptyStr m.away_club then
    [{ code := "match.away_club.missing", message := "Le club extérieur est manquant.",
       severity := Severity.error, field_name := some "away_club" }] else [])
  ++ (if m.total_home_points.isNone then
    [{ code := "match.total_home_points.missing", message := "Le total des points domicile est manquant.",
       severity := Severity.error, field_name := some "total_home_points" }] else [])
  ++ (if m.total_away_points.isNone then
    [{ code := "match.total_away_points.missing", message := "Le total des points extérieur est manquant.",
       severity := Severity.error, field_name := some "total_away_points" }] else [])
  ++ (if m.total_home_points.isSome && !isNonNegInt m.total_home_points then
    [{ code := "match.total_home_points.invalid", message := "Le total des points domicile doit être un entier ≥ 0.",
       severity := Severity.error, field_name := some "total_home_points" }] else [])
  ++ (if m.total_away_points.isSome && !isNonNegInt m.total_away_points then
    [{ code := "match.total_away_points.invalid", message := "Le total des points extérieur doit être un entier ≥ 0.",
       severity := Severity.error, field_name := some "total_away_points" }] else [])
  ++ (if m.date.isNone then
    [{ code := "match.date.missing", message := "La date du match est obligatoire.",
       severity := Severity.error, field_name := some "date" }] else [])
  ++ (if !pyNonEmptyStr m.season_id then
    [{ code := "match.season_id.missing", message := "La saison (ex: \x272025\x27) est obligatoire.",
       severity := Severity.error, field_name := some "season_id" }]
    else
      let s := pyStrip (m.season_id.getD "")
      if !(s.length == 4 && s.data.all Char.isDigit) then [season_format_issue s] else [])
  ++ (match m.venue with
      | some v => if 120 < v.length then [venue_too_long_issue v.length] else []
      | none => [])

/-- Parse `int(s)` on an already-stripped string: optional sign then decimal
digits; anything else raises (modelled as `none`).  Underscore separators and
non-ASCII digits, which Python also accepts, do not occur in season strings. -/
def digitsVal (cs : List Char) : Option Nat :=
  if cs ≠ [] ∧ cs.all Char.isDigit then
    some (cs.foldl (fun a c => a * 10 + (c.toNat - '0'.toNat)) 0)
  else none

def parsePyInt (s : String) : Option Int :=
  match s.data with
  | [] => none
  | '+' :: rest => (digitsVal rest).map Int.ofNat
  | '-' :: rest => (digitsVal rest).map (fun n => -(n : Int))
  | cs => (digitsVal cs).map Int.ofNat

def future_date_issue (d : PyDate) : ValidationIssue :=
  { code := "match.date.future",
    message := "La date (" ++ PyDate.repr d ++ ") est dans le futur.",
    severity := if DISALLOW_FUTURE_DATES then Severity.error else Severity.warning,
    field_name := some "date" }

def season_mismatch_issue (y dy : Int) : ValidationIssue :=
  { code := "match.season_id.mismatch_with_date",
    message := "Année de saison (" ++ toString y ++ ") ≠ année de la date du match (" ++ toString dy ++ ").",
    severity := Severity.warning, field_name := some "season_id",
    context := [("season", PyVal.vInt y), ("date_year", PyVal.vInt dy)] }

/-- `validate_date_and_season` (validators.py lines 139-172); `date.today()`
becomes the explicit `today` parameter. -/
def validate_date_and_season (today : PyDate) (m : Match) : List ValidationIssue :=
  (match m.date with
   | some d => if PyDate.ltb today d then [future_date_issue d] else []
   | none => [])
  ++ (if WARN_IF_SEASON_MISMATCH_WITH_DATE && m.date.isSome && pyNonEmptyStr m.season_id then
       match parsePyInt (pyStrip (m.season_id.getD "")) with
       | some y =>
         match m.date with
         | some d => if d.year ≠ y then [season_mismatch_issue y d.year] else []
         | none => []
       | none => []
     else [])

-- =========================
-- validators.py: quarter passes
-- =========================

/-- `f"Q{getattr(q, 'q', idx)}"`: the attribute always exists on a Quarter row,
so the label renders the stored value (`None` included). -/
def q_label (q : Quarter) : String :=
  match q.q with
  | some n => toString n
  | none => "None"

def quarter_field_issue (label fname : String) (v qv : Option Int) : ValidationIssue :=
  { code := "quarter.field.invalid",
    message := "Q" ++ label ++ ": " ++ fname ++ " doit être un entier ≥ 0.",
    severity := Severity.error, field_name := some fname,
    context := [("value", pyValOfOptInt v), ("quarter", pyValOfOptInt qv)] }

def home_formula_issue (label : String) (hp hg hb : Int) : ValidationIssue :=
  { code := "quarter.home_points.formula",
    message := "Q" ++ label ++ ": incohérence points domicile (" ++ toString hp
      ++ " ≠ 6*" ++ toString hg ++ "+" ++ toString hb ++ ").",
    severity := Severity.error, field_name := some "home_points" }

def away_formula_issue (label : String) (ap ag ab : Int) : ValidationIssue :=
  { code := "quarter.away_points.formula",
    message := "Q" ++ label ++ ": incohérence points extérieur (" ++ toString ap
      ++ " ≠ 6*" ++ toString ag ++ "+" ++ toString ab ++ ").",
    severity := Severity.error, field_name := some "away_points" }

def goals_high_issue (label : String) (hg ag : Int) : ValidationIssue :=
  { code := "quarter.goals.unusually_high",
    message := "Q" ++ label ++ ": nombre de goals inhabituel (home=" ++ toString hg
      ++ ", away=" ++ toString ag ++ ").",
    severity := Severity.warning }

def behinds_high_issue (label : String) (hb ab : Int) : ValidationIssue :=
  { code := "quarter.behinds.unusually_high",
    message := "Q" ++ label ++ ": nombre de behinds inhabituel (home=" ++ toString hb
      ++ ", away=" ++ toString ab ++ ").",
    severity := Severity.warning }

def points_high_issue (label : String) (hp ap : Int) : ValidationIssue :=
  { code := "quarter.points.unusually_high",
    message := "Q" ++ label ++ ": total de points inhabituel (home=" ++ toString hp
      ++ ", away=" ++ toString ap ++ ").",
    severity := Severity.warning }

/-- Body of the `validate_quarter_values` loop for one quarter
(validators.py lines 181-237); `_idx` is the enumerate counter, which the
source only uses as a `getattr` default for attributes that always exist. -/
def quarter_issues (_idx : Int) (q : Quarter) : List ValidationIssue :=
  let label := q_label q
  ((if !isNonNegInt q.home_goals then [quarter_field_issue label "home_goals" q.home_goals q.q] else [])
   ++ (if !isNonNegInt q.home_behinds then [quarter_field_issue label "home_behinds" q.home_behinds q.q] else [])
   ++ (if !isNonNegInt q.home_points then [quarter_field_issue label "home_points" q.home_points q.q] else [])
   ++ (if !isNonNegInt q.away_goals then [quarter_field_issue label "away_goals" q.away_goals q.q] else [])
   ++ (if !isNonNegInt q.away_behinds then [quarter_field_issue label "away_behinds" q.away_behinds q.q] else [])
   ++ (if !isNonNegInt q.away_points then [quarter_field_issue label "away_points" q.away_points q.q] else []))
  ++
  (let hg := safeInt q.home_goals 0
   let hb := safeInt q.home_behinds 0
   let hp := safeInt q.home_points 0
   let ag := safeInt q.away_goals 0
   let ab := safeInt q.away_behinds 0
   let ap := safeInt q.away_points 0
   (if hp ≠ points_of hg hb then [home_formula_issue label hp hg hb] else [])
   ++ (if ap ≠ points_of ag ab then [away_formula_issue label ap ag ab] else [])
   ++ (match MAX_GOALS_PER_QUARTER with
       | some mg => if mg < hg ∨ mg < ag then [goals_high_issue label hg ag] else []
       | none => [])
   ++ (match MAX_BEHINDS_PER_QUARTER with
       | some mb => if mb < hb ∨ mb < ab then [behinds_high_issue label hb ab] else []
       | none => [])
   ++ (match MAX_POINTS_PER_QUARTER with
       | some mp => if mp < hp ∨ mp < ap then [points_high_issue label hp ap] else []
       | none => []))

def validate_quarter_values_from (idx : Int) : List Quarter → List ValidationIssue
  | [] => []
  | q :: rest => quarter_issues idx q ++ validate_quarter_values_from (idx + 1) rest

/-- `validate_quarter_values` (validators.py lines 179-239). -/
def validate_quarter_values (qs : List Quarter) : List ValidationIssue :=
  validate_quarter_values_from 1 qs

/-- First-occurrence-ordered distinct elements: the iteration order of a
Python `Counter` built from a list. -/
def dedup_first [BEq α] (l : List α) : List α :=
  l.foldl (fun acc x => if acc.contains x then acc else acc ++ [x]) []

def insertIntAsc (x : Int) : List Int → List Int
  | [] => [x]
  | y :: ys => if x < y then x :: y :: ys else y :: insertIntAsc x ys

/-- Python `sorted` on a list of ints (ascending). -/
def sortInts : List Int → List Int
  | [] => []
  | x :: xs => insertIntAsc x (sortInts xs)

def insertStrAsc (x : String) : List String → List String
  | [] => [x]
  | y :: ys => if pyStrLt x y then x :: y :: ys else y :: insertStrAsc x ys

/-- Python `sorted` on a list of strings (ascending, code-point order). -/
def sortStrings : List String → List String
  | [] => []
  | x :: xs => insertStrAsc x (sortStrings xs)

def duplicate_number_issue (n : Int) : ValidationIssue :=
  { code := "quarters.duplicate_number",
    message := "Numéro de quart dupliqué: Q" ++ toString n ++ ".",
    severity := Severity.warning, field_name := some "q",
    context := [("duplicate", PyVal.vInt n)] }

def missing_quarters_issue (missing : List Int) : ValidationIssue :=
  { code := "quarters.missing",
    message := "Quarts manquants: " ++ String.intercalate ", " (missing.map (fun n => "Q" ++ toString n)) ++ ".",
    severity := Severity.warning }

def unexpected_quarters_issue (unexpected : List Int) : ValidationIssue :=
  { code := "quarters.unexpected",
    message := "Quarts inattendus: " ++ String.intercalate ", " (unexpected.map (fun n => "Q" ++ toString n)) ++ ".",
    severity := Severity.warning }

/-- `validate_quarter_sequence` (validators.py lines 242-268). -/
def validate_quarter_sequence (qs : List Quarter) : List ValidationIssue :=
  if qs.isEmpty then []
  else
    let ns : List Int := qs.filterMap Quarter.q
    let dups := (dedup_first ns).filter (fun n => 1 < ns.count n)
    let dupIssues := dups.map duplicate_number_issue
    let seqIssues :=
      if EXPECT_4_QUARTERS then
        let got := dedup_first ns
        let missing := EXPECTED_QUART_NUMBERS.filter (fun n => !(got.contains n))
        let unexpected := sortInts (got.filter (fun n => !(EXPECTED_QUART_NUMBERS.contains n)))
        (if !missing.isEmpty then [missing_quarters_issue missing] else [])
        ++ (if !unexpected.isEmpty then [unexpected_quarters_issue unexpected] else [])
      else []
    dupIssues ++ seqIssues

def home_mismatch_issue (hp : Int) (declaredRepr : String) : ValidationIssue :=
  { code := "match.totals.home_mismatch",
    message := "Somme quarts domicile (" ++ toString hp ++ ") ≠ total déclaré (" ++ declaredRepr ++ ").",
    severity := Severity.error, field_name := some "total_home_points" }

def away_mismatch_issue (ap : Int) (declaredRepr : String) : ValidationIssue :=
  { code := "match.totals.away_mismatch",
    message := "Somme quarts extérieur (" ++ toString ap ++ ") ≠ total déclaré (" ++ declaredRepr ++ ").",
    severity := Severity.error, field_name := some "total_away_points" }

/-- `validate_match_quarters_vs_totals` (validators.py lines 271-289).  The
`try/except` guard cannot fire in the typed embedding: `sum_quarters_match`
is total on `Option Int` fields. -/
def validate_match_quarters_vs_totals (m : Match) : List ValidationIssue :=
  if m.quarters.isEmpty then []
  else
    let sums := sum_quarters_match m.quarters
    let hp := sums.home.2.2
    let ap := sums.away.2.2
    (if hp ≠ safeInt m.total_home_points 0 then [home_mismatch_issue hp (pyReprOptInt m.total_home_points)] else [])
    ++ (if ap ≠ safeInt m.total_away_points 0 then [away_mismatch_issue ap (pyReprOptInt m.total_away_points)] else [])

-- =========================
-- validators.py: player passes
-- =========================

def player_name_missing_issue (i : Int) : ValidationIssue :=
  { code := "player.name.missing", message := "Ligne " ++ toString i ++ ": nom de joueur manquant.",
    severity := Severity.warning, field_name := some "player_name" }

def player_field_issue (i : Int) (fname : String) (v : Option Int) : ValidationIssue :=
  { code := "player.field.invalid",
    message := "Ligne " ++ toString i ++ ": " ++ fname ++ " doit être un entier ≥ 0.",
    severity := Severity.error, field_name := some fname,
    context := [("value", pyValOfOptInt v), ("row", PyVal.vInt i)] }

def player_formula_issue (i : Int) (p g b : Int) : ValidationIssue :=
  { code := "player.points.formula",
    message := "Ligne " ++ toString i ++ ": incohérence points (" ++ toString p
      ++ " ≠ 6*" ++ toString g ++ "+" ++ toString b ++ ").",
    severity := Severity.error, field_name := some "points" }

/-- Body of the `validate_player_rows` loop for one row (validators.py lines 300-316). -/
def player_row_issues (i : Int) (ps : PlayerStat) : List ValidationIssue :=
  (if !pyNonEmptyStr ps.player_name then [player_name_missing_issue i] else [])
  ++ (if !isNonNegInt ps.goals then [player_field_issue i "goals" ps.goals] else [])
  ++ (if !isNonNegInt ps.behinds then [player_field_issue i "behinds" ps.behinds] else [])
  ++ (if !isNonNegInt ps.points then [player_field_issue i "points" ps.points] else [])
  ++ (let g := safeInt ps.goals 0
      let b := safeInt ps.behinds 0
      let p := safeInt ps.points 0
      if p ≠ points_of g b then [player_formula_issue i p g b] else [])

def validate_player_rows_from (i : Int) : List PlayerStat → List ValidationIssue
  | [] => []
  | ps :: rest => player_row_issues i ps ++ validate_player_rows_from (i + 1) rest

/-- `validate_player_rows` (validators.py lines 296-318). -/
def validate_player_rows (l : List PlayerStat) : List ValidationIssue :=
  validate_player_rows_from 1 l

/-- `(name or "").strip().lower()` (validators.py line 327). -/
def norm_key (name : Option String) : String := pyLower (pyStrip (name.getD ""))

/-- One step of the key collection in `validate_duplicate_players`
(validators.py lines 326-329): the normalized key, kept only if non-empty. -/
def key_fn (ps : PlayerStat) : Option String :=
  let k := norm_key ps.player_name
  if k = "" then none else some k

/-- The `keys` list collected by `validate_duplicate_players` (validators.py lines 324-329). -/
def player_keys (l : List PlayerStat) : List String := l.filterMap key_fn

def duplicates_issue (sortedDups : List String) : ValidationIssue :=
  { code := "players.duplicates",
    message := "Noms de joueurs en doublon: " ++ String.intercalate ", " sortedDups ++ ".",
    severity := Severity.warning, field_name := some "player_name" }

/-- `validate_duplicate_players` (validators.py lines 321-333). -/
def validate_duplicate_players (l : List PlayerStat) : List ValidationIssue :=
  let keys := player_keys l
  let dup_names := (dedup_first keys).filter (fun n => 1 < keys.count n)
  if !dup_names.isEmpty then [duplicates_issue (sortStrings dup_names)] else []

def sum_skipped_issue : ValidationIssue :=
  { code := "players.sum_vs_declared.skipped",
    message := "Comparaison joueurs vs score déclaré ignorée (team_side/team_name non fourni).",
    severity := Severity.warning, field_name := some "player_stats" }

def sum_vs_declared_issue (label : String) (totalPlayers declared : Int) : ValidationIssue :=
  { code := "players.sum_vs_declared",
    message := "Somme points joueurs (" ++ toString totalPlayers ++ ") ≠ score déclaré ("
      ++ toString declared ++ ") côté " ++ label ++ ".",
    severity := Severity.error, field_name := some "player_stats",
    context := [("label", PyVal.vStr label), ("sum_players", PyVal.vInt totalPlayers),
                ("declared", PyVal.vInt declared)] }

/-- `team_side if team_side in {"home","away"} else (team_name or "?")` (validators.py line 361). -/
def label_of (team_side : Option Side) (team_name : Option String) : String :=
  match team_side with
  | some Side.home => "home"
  | some Side.away => "away"
  | none =>
    match team_name with
    | some t => if t = "" then "?" else t
    | none => "?"

/-- Sum of `_safe_int(ps.points, 0)` over the stat rows (validators.py lines 346-348). -/
def players_points_sum (l : List PlayerStat) : Int :=
  l.foldl (fun acc ps => acc + safeInt ps.points 0) 0

/-- `validate_players_vs_declared` (validators.py lines 336-371). -/
def validate_players_vs_declared (m : Match) (team_side : Option Side) (team_name : Option String) :
    List ValidationIssue :=
  if m.player_stats.isEmpty then []
  else
    let total_players := players_points_sum m.player_stats
    match declared_points m team_side team_name with
    | none => [sum_skipped_issue]
    | some declared =>
      let label := label_of team_side team_name
      if total_players ≠ declared then [sum_vs_declared_issue label total_players declared]
      else []

-- =========================
-- validators.py: aggregator
-- =========================

/-- `_split_issues` (validators.py lines 428-433), threading the two output
lists instead of mutating them. -/
def split_issues (issues : List ValidationIssue) (acc : List ValidationIssue × List ValidationIssue) :
    List ValidationIssue × List ValidationIssue :=
  issues.foldl
    (fun (ew : List ValidationIssue × List ValidationIssue) it =>
      if is_warning it then (ew.1, ew.2 ++ [it]) else (ew.1 ++ [it], ew.2))
    acc

/-- `validate_match` (validators.py lines 378-425): returns `(ok, errors, warnings)`. -/
def validate_match (today : PyDate) (m : Match) (team_side : Option Side) (team_name : Option String) :
    Bool × List ValidationIssue × List ValidationIssue :=
  let acc := split_issues (validate_match_structure m) ([], [])
  let acc := split_issues (validate_date_and_season today m) acc
  let acc :=
    if m.quarters.isEmpty then acc
    else
      split_issues (validate_match_quarters_vs_totals m)
        (split_issues (validate_quarter_sequence m.quarters)
          (split_issues (validate_quarter_values m.quarters) acc))
  let acc :=
    if m.player_stats.isEmpty then acc
    else
      split_issues (validate_players_vs_declared m team_side team_name)
        (split_issues (validate_duplicate_players m.player_stats)
          (split_issues (validate_player_rows m.player_stats) acc))
  (acc.1.isEmpty, acc.1, acc.2)

/-- All issues collected by the aggregator's passes, in pass order. -/
def collect_issues (today : PyDate) (m : Match) (team_side : Option Side) (team_name : Option String) :
    List ValidationIssue :=
  validate_match_structure m
  ++ validate_date_and_season today m
  ++ (if m.quarters.isEmpty then []
      else validate_quarter_values m.quarters ++ validate_quarter_sequence m.quarters
        ++ validate_match_quarters_vs_totals m)
  ++ (if m.player_stats.isEmpty then []
      else validate_player_rows m.player_stats ++ validate_duplicate_players m.player_stats
        ++ validate_players_vs_declared m team_side team_name)

-- =========================
-- matches_repo.py / players_repo.py: user filtering
-- =========================

/-- `_user_team_name` (matches_repo.py lines 58-59): `(user_ctx or {}).get("team_name") or ""`. -/
def user_team_name (ctx : Option UserCtx) : String :=
  ((ctx.bind UserCtx.team_name).getD "")

/-- `_is_admin` (matches_repo.py lines 61-62). -/
def is_admin (ctx : Option UserCtx) : Bool :=
  (ctx.map UserCtx.is_admin).getD false

/-- `_authorized_for_match` (matches_repo.py lines 64-68). -/
def authorized_for_match (ctx : Option UserCtx) (m : Match) : Bool :=
  if is_admin ctx then true
  else
    let team := pyStrip (user_team_name ctx)
    team ≠ "" && (m.home_club == some team || m.away_club == some team)

/-- The row predicate of `_apply_user_filter` (matches_repo.py lines 70-78):
admins see everything, a team-less user matches nothing (`WHERE false`),
otherwise the match must involve the user's team. -/
def match_visible (ctx : Option UserCtx) (m : Match) : Bool :=
  if is_admin ctx then true
  else
    let team := pyStrip (user_team_name ctx)
    if team = "" then false
    else m.home_club == some team || m.away_club == some team

/-- `_safe_str` (matches_repo.py lines 82-86, players_repo.py lines 14-18):
strip, truncate to `maxLen`, empty becomes `None`. -/
def safe_str (x : Option String) (maxLen : Nat) : Option String :=
  match x with
  | none => none
  | some s =>
    let t := pyTake (pyStrip s) maxLen
    if t = "" then none else some t

/-- `_recompute_match_totals_from_quarters` (matches_repo.py lines 88-95). -/
def recompute_match_totals_from_quarters (m : Match) : Match :=
  if m.quarters.isEmpty then m
  else
    { m with
      total_home_points := some ((m.quarters.map (fun q => pyOrZero q.home_points)).sum),
      total_away_points := some ((m.quarters.map (fun q => pyOrZero q.away_points)).sum) }

/-- Python `x or d` on ints (`0` is falsy). -/
def pyOrInt (x d : Int) : Int := if x == 0 then d else x

-- =========================
-- matches_repo.py: queries over a database modelled as a list of rows
-- =========================

/-- `insert_match` (matches_repo.py lines 102-125): ownership guard, string
normalisation, totals recomputation, insert.  The raised `PermissionError` is
the `Except.error` branch; a successful insert returns the new database and
the new row id. -/
def insert_match (db : List Match) (m : Match) (user_ctx : Option UserCtx) :
    Except String (List Match × Int) :=
  if !is_admin user_ctx &&
      (let team := pyStrip (user_team_name user_ctx)
       team == "" || !(m.home_club == some team || m.away_club == some team)) then
    Except.error "Non autorisé à créer ce match pour cette équipe."
  else
    let m := { m with season_id := safe_str m.season_id 16, venue := safe_str m.venue 120,
                      home_club := safe_str m.home_club 80, away_club := safe_str m.away_club 80 }
    let m := recompute_match_totals_from_quarters m
    let new_id : Int := (db.length : Int) + 1
    Except.ok (db ++ [{ m with id := some new_id }], new_id)

/-- `get_match` (matches_repo.py lines 127-136): `WHERE id = match_id` plus the
user filter; `scalar_one_or_none` is the head of the result set. -/
def get_match (db : List Match) (match_id : Int) (ctx : Option UserCtx) : Option Match :=
  (db.filter (fun m => m.id == some match_id && match_visible ctx m)).head?

/-- `list_matches` (matches_repo.py lines 138-143); `ORDER BY` is not modelled. -/
def list_matches (db : List Match) (limit : Int) (ctx : Option UserCtx) : List Match :=
  (db.filter (match_visible ctx)).take (pyOrInt limit 50).toNat

/-- `list_matches_by_season` (matches_repo.py lines 263-273). -/
def list_matches_by_season (db : List Match) (season_id : String) (ctx : Option UserCtx) :
    List Match :=
  let season := (safe_str (some season_id) 16).getD ""
  db.filter (fun m => m.season_id == some season && match_visible ctx m)

/-- `get_latest_match` (matches_repo.py lines 282-287); `ORDER BY ... LIMIT 1`
is the head of the (unordered) filtered set. -/
def get_latest_match (db : List Match) (ctx : Option UserCtx) : Option Match :=
  (db.filter (match_visible ctx)).head?

/-- `count_matches` (matches_repo.py lines 257-261). -/
def count_matches (db : List Match) (ctx : Option UserCtx) : Int :=
  ((db.filter (match_visible ctx)).length : Int)

/-- `list_matches_for_team` (matches_repo.py lines 436-455).  Note: this query
does NOT call `_apply_user_filter`; for a non-admin the team is overridden by
`_user_team_name(user_ctx).strip() or team` — which falls back to the
caller-supplied team name when the user has no team. -/
def list_matches_for_team (db : List Match) (team_name : String) (limit : Int)
    (ctx : Option UserCtx) : List Match :=
  let team0 := safe_str (some team_name) 80
  let team :=
    if !is_admin ctx then
      let u := pyStrip (user_team_name ctx)
      if u = "" then team0 else some u
    else team0
  match team with
  | none => []
  | some t =>
    if t = "" then []
    else
      (db.filter (fun m => m.home_club == some t || m.away_club == some t)).take
        (pyOrInt limit 100).toNat

-- =========================
-- players_repo.py
-- =========================

/-- `_authorized_for_player` (players_repo.py lines 48-52). -/
def authorized_for_player (ctx : Option UserCtx) (p : Player) : Bool :=
  if is_admin ctx then true
  else
    let team := pyStrip (user_team_name ctx)
    team ≠ "" && p.club == team

/-- The `(club, name)` unique constraint `uq_player_club_name` (models.py
lines 32-38): flushing a rename to `nn` violates it exactly when another row
of the same club already carries that name. -/
def unique_clash (db : List Player) (p : Player) (nn : String) : Bool :=
  db.any (fun q => q.id != p.id && q.club == p.club && q.name == nn)

/-- `rename_player` (players_repo.py lines 150-165): an `IntegrityError` on
flush is caught, the transaction rolled back (database unchanged) and `False`
returned; otherwise the new name is committed.  The database is threaded
explicitly: the second component is the post-call database state. -/
def rename_player (db : List Player) (player_id : Int) (new_name : Option String)
    (ctx : Option UserCtx) : Bool × List Player :=
  match safe_str new_name 80 with
  | none => (false, db)
  | some nn =>
    match db.find? (fun p => p.id == player_id) with
    | none => (false, db)
    | some p =>
      if !(authorized_for_player ctx p) then (false, db)
      else if unique_clash db p nn then (false, db)
      else (true, db.map (fun q => if q.id == p.id then { q with name := nn } else q))

-- =========================
-- match_service.py
-- =========================

/-- Service-level `_safe_str` (match_service.py lines 22-26). -/
def svc_safe_str (x : Option String) : Option String :=
  match x with
  | none => none
  | some s => let t := pyStrip s; if t = "" then none else some t

/-- `_ensure_quarter` (match_service.py lines 28-49): coerce every numeric
field through `_safe_int`. -/
def ensure_quarter (q : Quarter) (idx : Int) : Quarter :=
  { q := some (safeInt q.q idx),
    home_goals := some (safeInt q.home_goals 0),
    home_behinds := some (safeInt q.home_behinds 0),
    home_points := some (safeInt q.home_points 0),
    away_goals := some (safeInt q.away_goals 0),
    away_behinds := some (safeInt q.away_behinds 0),
    away_points := some (safeInt q.away_points 0) }

/-- `_ensure_playerstat` (match_service.py lines 51-66). -/
def ensure_playerstat (r : PlayerStat) : PlayerStat :=
  { player_id := r.player_id,
    player_name := some ((svc_safe_str r.player_name).getD "Inconnu"),
    goals := some (safeInt r.goals 0),
    behinds := some (safeInt r.behinds 0),
    points := some (safeInt r.points 0) }

def ensure_quarters_from (idx : Int) : List Quarter → List Quarter
  | [] => []
  | q :: rest => ensure_quarter q idx :: ensure_quarters_from (idx + 1) rest

/-- `_normalize_match` (match_service.py lines 68-81). -/
def normalize_match (m : Match) : Match :=
  { m with
    season_id := some ((svc_safe_str m.season_id).getD ""),
    venue := svc_safe_str m.venue,
    home_club := some ((svc_safe_str m.home_club).getD ""),
    away_club := some ((svc_safe_str m.away_club).getD ""),
    total_home_points := some (safeInt m.total_home_points 0),
    total_away_points := some (safeInt m.total_away_points 0),
    quarters := ensure_quarters_from 1 m.quarters,
    player_stats := m.player_stats.map ensure_playerstat }

/-- `_ensure_authorized_to_create` (match_service.py lines 88-103). -/
def ensure_authorized_to_create (ctx : Option UserCtx) (m : Match) : Bool × Option String :=
  match ctx with
  | none => (true, none)
  | some c =>
    if c.is_admin then (true, none)
    else
      let team := pyStrip (c.team_name.getD "")
      if team = "" then (false, some "Aucune équipe associée à votre compte.")
      else if !(m.home_club == some team || m.away_club == some team) then
        (false, some ("Non autorisé: votre équipe \x27" ++ team ++ "\x27 ne figure pas dans ce match."))
      else (true, none)

/-- `save_post_match` (match_service.py lines 110-176).  The dict input branch
(lines 130-141) only builds a `Match` with the same fields before the common
`_normalize_match` call, so quantifying over all `Match` values covers both
input shapes.  Note line 173: `insert_match(m)` is called WITHOUT forwarding
`user_ctx`, so the repository guard always raises `PermissionError`, which the
`except` turns into a `(False, [...], None)` return. -/
def save_post_match (today : PyDate) (db : List Match) (match0 : Match)
    (user_ctx : Option UserCtx) : Bool × List String × Option Int :=
  let m := normalize_match match0
  let m := if !m.quarters.isEmpty then compute_totals_from_quarters m else m
  let team_side : Option Side :=
    match user_ctx with
    | some c =>
      match c.team_name with
      | some t =>
        if t ≠ "" then
          if m.home_club == some t then some Side.home
          else if m.away_club == some t then some Side.away
          else none
        else none
      | none => none
    | none => none
  let v := validate_match today m team_side none
  if !v.1 then (false, issues_as_strings v.2.1, none)
  else
    let auth := ensure_authorized_to_create user_ctx m
    if !auth.1 then (false, [auth.2.getD "Non autorisé."], none)
    else
      match insert_match db m none with
      | Except.ok r => (true, [], some r.2)
      | Except.error ex => (false, ["Erreur enregistrement: " ++ ex], none)

-- =========================
-- Helper lemmas
-- =========================

theorem isEmpty_eq_true_iff (l : List ValidationIssue) : l.isEmpty = true ↔ l = [] := by
  cases l <;> simp

theorem isNonNegInt_isSome (x : Option Int) (h : isNonNegInt x = true) : x.isSome = true := by
  cases x with
  | none => simp [isNonNegInt] at h
  | some n => rfl

theorem split_issues_spec (issues : List ValidationIssue) (e w : List ValidationIssue) :
    split_issues issues (e, w) = (e ++ issues.filter is_error, w ++ issues.filter is_warning) := by
  induction issues generalizing e w with
  | nil => simp [split_issues]
  | cons i rest ih =>
    by_cases h : is_warning i = true
    · have he : is_error i = false := by simp [is_error, h]
      simp only [split_issues, List.foldl_cons, h, if_true]
      have := ih e (w ++ [i])
      simp only [split_issues] at this
      rw [this]
      simp [List.filter_cons, h, he]
    · have hw : is_warning i = false := by simpa using h
      have he : is_error i = true := by simp [is_error, hw]
      simp only [split_issues, List.foldl_cons, hw, if_false, Bool.false_eq_true]
      have := ih (e ++ [i]) w
      simp only [split_issues] at this
      rw [this]
      simp [List.filter_cons, hw, he]

theorem vm_result_eq (today : PyDate) (m : Match) (ts : Option Side) (tn : Option String) :
    validate_match today m ts tn =
      (((collect_issues today m ts tn).filter is_error).isEmpty,
       (collect_issues today m ts tn).filter is_error,
       (collect_issues today m ts tn).filter is_warning) := by
  unfold validate_match collect_issues
  by_cases hq : m.quarters.isEmpty <;> by_cases hp : m.player_stats.isEmpty <;>
    simp [hq, hp, split_issues_spec, List.filter_append, List.append_assoc]

theorem vm_errors_eq (today : PyDate) (m : Match) (ts : Option Side) (tn : Option String) :
    (validate_match today m ts tn).2.1 = (collect_issues today m ts tn).filter is_error := by
  rw [vm_result_eq]

theorem vm_warnings_eq (today : PyDate) (m : Match) (ts : Option Side) (tn : Option String) :
    (validate_match today m ts tn).2.2 = (collect_issues today m ts tn).filter is_warning := by
  rw [vm_result_eq]

theorem vm_ok_iff (today : PyDate) (m : Match) (ts : Option Side) (tn : Option String) :
    (validate_match today m ts tn).1 = true ↔ (validate_match today m ts tn).2.1 = [] := by
  rw [vm_result_eq]
  exact isEmpty_eq_true_iff _

theorem structure_errors_nil (m : Match)
    (hh : pyNonEmptyStr m.home_club = true) (ha : pyNonEmptyStr m.away_club = true)
    (hs : pyNonEmptyStr m.season_id = true) (hd : m.date.isSome = true)
    (hth : isNonNegInt m.total_home_points = true)
    (hta : isNonNegInt m.total_away_points = true) :
    (validate_match_structure m).filter is_error = [] := by
  have h1 : m.total_home_points.isNone = false := by
    cases hx : m.total_home_points
    · rw [hx] at hth; simp [isNonNegInt] at hth
    · rfl
  have h2 : m.total_away_points.isNone = false := by
    cases hx : m.total_away_points
    · rw [hx] at hta; simp [isNonNegInt] at hta
    · rfl
  have h3 : m.date.isNone = false := by
    cases hx : m.date
    · rw [hx] at hd; simp at hd
    · rfl
  unfold validate_match_structure
  simp only [hh, ha, hs, h1, h2, h3, hth, hta, Bool.not_true, Bool.and_false,
    Bool.false_eq_true, if_false, List.nil_append, List.filter_append, List.append_nil]
  refine List.append_eq_nil.mpr ⟨?_, ?_⟩
  · split
    · simp [is_error, is_warning, season_format_issue]
    · simp
  · cases m.venue with
    | none => simp
    | some v =>
      simp only []
      split
      · simp [is_error, is_warning, venue_too_long_issue]
      · simp

theorem date_season_errors_nil (today : PyDate) (m : Match) :
    (validate_date_and_season today m).filter is_error = [] := by
  unfold validate_date_and_season
  rw [List.filter_append]
  refine List.append_eq_nil.mpr ⟨?_, ?_⟩
  · cases m.date with
    | none => simp
    | some d =>
      simp only []
      split
      · simp [is_error, is_warning, future_date_issue, DISALLOW_FUTURE_DATES]
      · simp
  · split
    · cases hy : parsePyInt (pyStrip (m.season_id.getD "")) with
      | none => simp
      | some y =>
        cases hd : m.date with
        | none => simp
        | some d =>
          simp only []
          split
          · simp [is_error, is_warning, season_mismatch_issue]
          · simp
    · simp

-- =========================
-- Claim theorems
-- =========================

/-- C1: for all non-negative integers g and b, `points_of(g, b)` returns `6*g + b`. -/
theorem points_of_correct (g b : Int) (hg : 0 ≤ g) (hb : 0 ≤ b) :
    points_of g b = 6 * g + b := by
  rw [points_of_eq]; ring

/-- Witness for C1 at g = 3, b = 2. -/
theorem points_of_correct_witness :
    (0 : Int) ≤ 3 ∧ (0 : Int) ≤ 2 ∧ points_of 3 2 = 6 * 3 + 2 :=
  ⟨by decide, by decide, points_of_correct 3 2 (by decide) (by decide)⟩

/-- C2: for every match (and optional team_side/team_name), `validate_match`
returns `(ok, errors, warnings)` where the errors list holds exactly the
collected issues that are not warnings, the warnings list holds exactly the
collected warnings, and `ok` is true iff `errors` is empty. -/
theorem validate_match_severity_split (today : PyDate) (m : Match) (ts : Option Side)
    (tn : Option String) :
    (validate_match today m ts tn).2.1 = (collect_issues today m ts tn).filter is_error ∧
    (validate_match today m ts tn).2.2 = (collect_issues today m ts tn).filter is_warning ∧
    ((validate_match today m ts tn).1 = true ↔ (validate_match today m ts tn).2.1 = []) :=
  ⟨vm_errors_eq today m ts tn, vm_warnings_eq today m ts tn, vm_ok_iff today m ts tn⟩

/-- C9: a match with no quarters and no player stats validates with ok = true
whenever its required fields are present (non-empty home club, away club and
season id, a date) and its declared totals are non-negative integers. -/
theorem validate_match_minimal_ok (today : PyDate) (m : Match) (ts : Option Side)
    (tn : Option String)
    (hq : m.quarters = []) (hp : m.player_stats = [])
    (hh : pyNonEmptyStr m.home_club = true) (ha : pyNonEmptyStr m.away_club = true)
    (hs : pyNonEmptyStr m.season_id = true) (hd : m.date.isSome = true)
    (hth : isNonNegInt m.total_home_points = true)
    (hta : isNonNegInt m.total_away_points = true) :
    (validate_match today m ts tn).1 = true := by
  rw [vm_ok_iff, vm_errors_eq]
  unfold collect_issues
  simp only [hq, hp, List.isEmpty_nil, if_true, List.append_nil, List.filter_append]
  rw [structure_errors_nil m hh ha hs hd hth hta, date_season_errors_nil]
  rfl

/-- Witness for C9: a bare but well-formed match. -/
theorem validate_match_minimal_ok_witness :
    (validate_match (PyDate.mk 2025 6 1)
      { season_id := some "2025", date := some (PyDate.mk 2025 5 1),
        home_club := some "Toulouse", away_club := some "Lyon",
        total_home_points := some 20, total_away_points := some 18 }
      none none).1 = true :=
  validate_match_minimal_ok (PyDate.mk 2025 6 1) _ none none rfl rfl (by decide) (by decide)
    (by decide) (by decide) (by decide) (by decide)

/-- C3: for every match whose quarters sum to 20 home points and 18 away
points while the declared totals are 20 and 20, the quarters-vs-totals pass
reports exactly the away-side mismatch error (field `total_away_points`) and
no home-side error. -/
theorem quarters_vs_totals_away_only (m : Match)
    (hq : (sum_quarters_match m.quarters).home.2.2 = 20)
    (ha : (sum_quarters_match m.quarters).away.2.2 = 18)
    (hth : m.total_home_points = some 20)
    (hta : m.total_away_points = some 20) :
    validate_match_quarters_vs_totals m = [away_mismatch_issue 18 "20"] := by
  have hne : m.quarters.isEmpty = false := by
    cases hqs : m.quarters with
    | nil =>
      rw [hqs] at hq
      simp [sum_quarters_match, sum_quarters_team] at hq
    | cons a l => rfl
  unfold validate_match_quarters_vs_totals
  simp only [hne, Bool.false_eq_true, if_false, hq, ha, hth, hta, safeInt, Option.getD_some,
    pyReprOptInt]
  norm_num
  decide

/-- Witness for C3: one quarter scoring 3.2 (20) at home and 2.6 (18) away,
with declared totals 20-20. -/
theorem quarters_vs_totals_away_only_witness :
    validate_match_quarters_vs_totals
      { home_club := some "Toulouse", away_club := some "Lyon",
        total_home_points := some 20, total_away_points := some 20,
        quarters := [{ q := some 1, home_goals := some 3, home_behinds := some 2,
                       home_points := some 20, away_goals := some 2, away_behinds := some 6,
                       away_points := some 18 }] } = [away_mismatch_issue 18 "20"] :=
  quarters_vs_totals_away_only _ (by decide) (by decide) rfl rfl

/-- C7: a quarter whose six fields are non-negative integers, with
home 3.2 declared as 19 points and a self-consistent away side, produces
exactly one error, the `quarter.home_points.formula` mismatch on
`home_points`, and no other error. -/
theorem quarter_values_single_home_formula_error (q : Quarter) (ag ab : Int)
    (h1 : q.home_goals = some 3) (h2 : q.home_behinds = some 2)
    (h3 : q.home_points = some 19)
    (h4 : q.away_goals = some ag) (h5 : q.away_behinds = some ab)
    (h6 : q.away_points = some (ag * 6 + ab)) (h7 : 0 ≤ ag) (h8 : 0 ≤ ab) :
    (validate_quarter_values [q]).filter is_error =
      [home_formula_issue (q_label q) 19 3 2] := by
  have hap : (0 : Int) ≤ ag * 6 + ab := by positivity
  obtain ⟨qq, f1, f2, f3, f4, f5, f6⟩ := q
  simp only [] at h1 h2 h3 h4 h5 h6
  subst h1 h2 h3 h4 h5 h6
  have hsingle :
      validate_quarter_values [Quarter.mk qq (some 3) (some 2) (some 19) (some ag) (some ab)
          (some (ag * 6 + ab))] =
        quarter_issues 1 (Quarter.mk qq (some 3) (some 2) (some 19) (some ag) (some ab)
          (some (ag * 6 + ab))) :=
    List.append_nil _
  rw [hsingle]
  simp only [quarter_issues, isNonNegInt, safeInt, Option.getD_some, points_of_eq,
    MAX_GOALS_PER_QUARTER, MAX_BEHINDS_PER_QUARTER, MAX_POINTS_PER_QUARTER,
    List.filter_append]
  simp only [h7, h8, hap, decide_eq_true_eq, decide_True, Bool.not_true, Bool.false_eq_true,
    if_false, List.nil_append, List.filter_nil, List.append_nil]
  norm_num
  split_ifs <;>
    simp [is_error, is_warning, home_formula_issue, goals_high_issue, behinds_high_issue,
      points_high_issue]

/-- Witness for C7: home 3.2 (19), away 4.1 (25). -/
theorem quarter_values_single_home_formula_error_witness :
    (validate_quarter_values
      [{ q := some 1, home_goals := some 3, home_behinds := some 2, home_points := some 19,
         away_goals := some 4, away_behinds := some 1, away_points := some 25 }]).filter
        is_error =
      [home_formula_issue
        (q_label { q := some 1, home_goals := some 3, home_behinds := some 2,
                   home_points := some 19, away_goals := some 4, away_behinds := some 1,
                   away_points := some 25 }) 19 3 2] :=
  quarter_values_single_home_formula_error _ 4 1 rfl rfl rfl rfl rfl rfl (by decide) (by decide)

theorem dedup_first_mem [BEq α] [LawfulBEq α] (l : List α) (acc : List α) (x : α) :
    x ∈ l.foldl (fun acc y => if acc.contains y then acc else acc ++ [y]) acc ↔
      x ∈ acc ∨ x ∈ l := by
  induction l generalizing acc with
  | nil => simp
  | cons a t ih =>
    simp only [List.foldl_cons]
    by_cases h : acc.contains a = true
    · have ha : a ∈ acc := by
        rw [List.contains_eq_any_beq] at h
        simp only [List.any_eq_true, beq_iff_eq] at h
        obtain ⟨y, hy, rfl⟩ := h
        exact hy
      rw [if_pos h, ih]
      constructor
      · rintro (hx | hx)
        · exact Or.inl hx
        · exact Or.inr (List.mem_cons_of_mem a hx)
      · rintro (hx | hx)
        · exact Or.inl hx
        · rcases List.mem_cons.mp hx with rfl | hx
          · exact Or.inl ha
          · exact Or.inr hx
    · rw [if_neg h, ih]
      simp only [List.mem_append, List.mem_singleton, List.mem_cons]
      tauto

theorem dedup_first_nodup [BEq α] [LawfulBEq α] (l : List α) (acc : List α)
    (hacc : acc.Nodup) :
    (l.foldl (fun acc y => if acc.contains y then acc else acc ++ [y]) acc).Nodup := by
  induction l generalizing acc with
  | nil => simpa using hacc
  | cons a t ih =>
    simp only [List.foldl_cons]
    by_cases h : acc.contains a = true
    · rw [if_pos h]
      exact ih acc hacc
    · have hna : a ∉ acc := by
        intro hmem
        exact h (List.elem_eq_true_of_mem hmem)
      rw [if_neg h]
      refine ih _ ?_
      have hdisj : acc.Disjoint [a] := by
        intro x hx hx2
        simp only [List.mem_singleton] at hx2
        subst hx2
        exact hna hx
      exact List.Nodup.append hacc (List.nodup_singleton a) hdisj

theorem nodup_filter_eq_singleton (u : List String) (p : String → Bool) (a : String)
    (hu : u.Nodup) (hmem : a ∈ u) (hpa : p a = true)
    (honly : ∀ x ∈ u, p x = true → x = a) :
    u.filter p = [a] := by
  induction u with
  | nil => simp at hmem
  | cons b t ih =>
    by_cases hba : b = a
    · subst hba
      rw [List.filter_cons_of_pos hpa]
      have hnot : b ∉ t := (List.nodup_cons.mp hu).1
      have hnil : t.filter p = [] := by
        rw [List.filter_eq_nil_iff]
        intro x hx hpx
        exact hnot ((honly x (List.mem_cons_of_mem b hx) hpx) ▸ hx)
      rw [hnil]
    · have hpb : p b = false := by
        cases hc : p b
        · rfl
        · exact absurd (honly b (List.mem_cons_self b t) hc) hba
      rw [List.filter_cons_of_neg (by simp [hpb])]
      have hat : a ∈ t := by
        rcases List.mem_cons.mp hmem with heq | hat
        · exact absurd heq.symm hba
        · exact hat
      exact ih (List.nodup_cons.mp hu).2 hat
        (fun x hx hpx => honly x (List.mem_cons_of_mem b hx) hpx)

theorem player_keys_cons (ps : PlayerStat) (t : List PlayerStat) :
    player_keys (ps :: t) =
      match key_fn ps with
      | none => player_keys t
      | some v => v :: player_keys t := by
  unfold player_keys
  rw [List.filterMap_cons]
  cases key_fn ps <;> rfl

theorem count_le_cons (v k : String) (s : List String) : s.count k ≤ (v :: s).count k := by
  rw [List.count_cons]; omega

theorem key_count_ge_one (l : List PlayerStat) (a : Option String) (k : String)
    (hk : k ≠ "") (hka : norm_key a = k) (ha : a ∈ l.map PlayerStat.player_name) :
    1 ≤ (player_keys l).count k := by
  induction l with
  | nil => simp at ha
  | cons ps t ih =>
    rw [List.map_cons] at ha
    rcases List.mem_cons.mp ha with hah | hat
    · have hf : key_fn ps = some k := by
        unfold key_fn
        simp only []
        rw [← hah, hka, if_neg hk]
      rw [player_keys_cons, hf]
      simp [List.count_cons]
    · have hrec := ih hat
      rw [player_keys_cons]
      cases hf : key_fn ps with
      | none => exact hrec
      | some v => exact le_trans hrec (count_le_cons v k _)

theorem key_count_ge_two (l : List PlayerStat) (a b : Option String) (k : String)
    (hab : a ≠ b) (hk : k ≠ "") (hka : norm_key a = k) (hkb : norm_key b = k)
    (ha : a ∈ l.map PlayerStat.player_name) (hb : b ∈ l.map PlayerStat.player_name) :
    2 ≤ (player_keys l).count k := by
  induction l with
  | nil => simp at ha
  | cons ps t ih =>
    rw [List.map_cons] at ha hb
    rcases List.mem_cons.mp ha with hah | hat
    · have hbt : b ∈ t.map PlayerStat.player_name := by
        rcases List.mem_cons.mp hb with hbh | hbt
        · exact absurd (hah.trans hbh.symm) hab
        · exact hbt
      have hf : key_fn ps = some k := by
        unfold key_fn
        simp only []
        rw [← hah, hka, if_neg hk]
      rw [player_keys_cons, hf]
      have h1 := key_count_ge_one t b k hk hkb hbt
      rw [List.count_cons]
      simp only [beq_self_eq_true, if_true]
      omega
    · rcases List.mem_cons.mp hb with hbh | hbt
      · have hf : key_fn ps = some k := by
          unfold key_fn
          simp only []
          rw [← hbh, hkb, if_neg hk]
        rw [player_keys_cons, hf]
        have h1 := key_count_ge_one t a k hk hka hat
        rw [List.count_cons]
        simp only [beq_self_eq_true, if_true]
        omega
      · have hrec := ih hat hbt
        rw [player_keys_cons]
        cases hf : key_fn ps with
        | none => exact hrec
        | some v => exact le_trans hrec (count_le_cons v k _)

/-- C8: a stat list containing the player names "Lucas" and " lucas " whose
other names do not duplicate after trimming and lowercasing produces exactly
one issue: a warning referencing the normalized name "lucas". -/
theorem duplicate_players_single_warning (l : List PlayerStat)
    (hA : (some "Lucas" : Option String) ∈ l.map PlayerStat.player_name)
    (hB : (some " lucas " : Option String) ∈ l.map PlayerStat.player_name)
    (hOther : ∀ k ∈ player_keys l, k ≠ "lucas" → (player_keys l).count k ≤ 1) :
    validate_duplicate_players l = [duplicates_issue ["lucas"]] := by
  have hka : norm_key (some "Lucas") = "lucas" := by decide
  have hkb : norm_key (some " lucas ") = "lucas" := by decide
  have hcount : 2 ≤ (player_keys l).count "lucas" :=
    key_count_ge_two l (some "Lucas") (some " lucas ") "lucas" (by decide) (by decide)
      hka hkb hA hB
  have hmem : "lucas" ∈ player_keys l := by
    have : 0 < (player_keys l).count "lucas" := by omega
    exact List.count_pos_iff.mp this
  have hdups : (dedup_first (player_keys l)).filter
      (fun n => 1 < (player_keys l).count n) = ["lucas"] := by
    apply nodup_filter_eq_singleton
    · exact dedup_first_nodup _ [] List.nodup_nil
    · exact (dedup_first_mem _ [] _).mpr (Or.inr hmem)
    · simp only [decide_eq_true_eq]
      omega
    · intro x hx hpx
      have hxk : x ∈ player_keys l := by
        rcases (dedup_first_mem _ [] x).mp hx with h | h
        · simp at h
        · exact h
      by_contra hne
      have := hOther x hxk hne
      simp only [decide_eq_true_eq] at hpx
      omega
  simp only [validate_duplicate_players]
  rw [hdups]
  rfl

/-- Witness for C8: rows for "Lucas" and " lucas ". -/
theorem duplicate_players_single_warning_witness :
    validate_duplicate_players
      [{ player_name := some "Lucas", goals := some 1, behinds := some 0, points := some 6 },
       { player_name := some " lucas ", goals := some 0, behinds := some 1, points := some 1 }] =
      [duplicates_issue ["lucas"]] :=
  duplicate_players_single_warning _ (by decide) (by decide) (by decide)

/-- C4: with player stats present summing to 27 points and the home side
selected (explicitly, or through a team name equal to the match's home club)
while the match declares 30 home points, `validate_players_vs_declared`
reports the players-vs-declared error citing 27 ≠ 30; when the sum equals the
declared total it reports nothing. -/
theorem players_vs_declared_reports (m : Match) (ts : Option Side) (tn : Option String)
    (hne : m.player_stats ≠ [])
    (h30 : m.total_home_points = some 30)
    (hside : ts = some Side.home ∨
      (ts = none ∧ pyNonEmptyStr tn = true ∧ m.home_club = tn)) :
    (players_points_sum m.player_stats = 27 →
      validate_players_vs_declared m ts tn =
        [sum_vs_declared_issue (label_of ts tn) 27 30]) ∧
    (players_points_sum m.player_stats = 30 →
      validate_players_vs_declared m ts tn = []) := by
  have hdecl : declared_points m ts tn = some 30 := by
    rcases hside with rfl | ⟨rfl, htn, hhc⟩
    · simp [declared_points, safeInt, h30]
    · simp [declared_points, htn, hhc, safeInt, h30]
  have hne2 : m.player_stats.isEmpty = false := by
    cases h : m.player_stats
    · exact absurd h hne
    · rfl
  constructor
  · intro hsum
    unfold validate_players_vs_declared
    simp only [hne2, Bool.false_eq_true, if_false, hdecl, hsum]
    norm_num
  · intro hsum
    unfold validate_players_vs_declared
    simp only [hne2, Bool.false_eq_true, if_false, hdecl, hsum]
    norm_num

/-- Witness for C4: one home-side row with 27 points against a declared 30. -/
theorem players_vs_declared_reports_witness :
    validate_players_vs_declared
      { home_club := some "Toulouse", away_club := some "Lyon",
        total_home_points := some 30, total_away_points := some 0,
        player_stats := [{ player_name := some "A", goals := some 4, behinds := some 3,
                           points := some 27 }] }
      (some Side.home) none =
      [sum_vs_declared_issue (label_of (some Side.home) none) 27 30] :=
  (players_vs_declared_reports _ (some Side.home) none (by decide) rfl (Or.inl rfl)).1
    (by decide)

theorem insert_match_no_ctx (db : List Match) (m : Match) :
    insert_match db m none =
      Except.error "Non autorisé à créer ce match pour cette équipe." := rfl

/-- C5: `save_post_match` never returns with first component `True`: even when
validation and the service-level authorization pass, line 173 calls
`insert_match(m)` without forwarding `user_ctx`, the repository guard raises
`PermissionError` (empty context is neither admin nor carries a team), and
the exception handler returns `(False, [message], None)`. -/
theorem save_post_match_never_ok (today : PyDate) (db : List Match) (match0 : Match)
    (user_ctx : Option UserCtx) :
    (save_post_match today db match0 user_ctx).1 = false := by
  simp only [save_post_match, insert_match_no_ctx]
  split_ifs <;> rfl

/-- A match between clubs "A" and "B", used as a stored database row. -/
def exMatchAB : Match :=
  { id := some 1, season_id := some "2025", date := some (PyDate.mk 2025 5 1),
    home_club := some "A", away_club := some "B",
    total_home_points := some 10, total_away_points := some 5 }

/-- A logged-in non-admin user whose account has no team name. -/
def ctxNoTeam : Option UserCtx := some { is_admin := false, team_name := some "" }

/-- A logged-in non-admin user of team "A". -/
def ctxTeamA : Option UserCtx := some { is_admin := false, team_name := some "A" }

/-- Does the match involve team `t` (the property C6 asserts of results)? -/
def team_ok (t : String) (m : Match) : Bool :=
  m.home_club == some t || m.away_club == some t

def option_team_ok (t : String) (o : Option Match) : Bool :=
  match o with
  | none => true
  | some m => team_ok t m

/-- Counterexample to C6 as stated: a non-admin user with an empty team name
obtains, through `list_matches_for_team`, a match of a team that is not their
own (the query falls back to the caller-supplied team name instead of
applying the ownership filter). -/
theorem list_matches_for_team_leak :
    is_admin ctxNoTeam = false ∧
    list_matches_for_team [exMatchAB] "A" 100 ctxNoTeam = [exMatchAB] ∧
    team_ok (pyStrip (user_team_name ctxNoTeam)) exMatchAB = false := by decide

theorem visible_team_ok (ctx : Option UserCtx) (m : Match)
    (hna : is_admin ctx = false) (ht : pyStrip (user_team_name ctx) ≠ "")
    (hv : match_visible ctx m = true) :
    team_ok (pyStrip (user_team_name ctx)) m = true := by
  unfold match_visible at hv
  simp only [hna, Bool.false_eq_true, if_false] at hv
  rw [if_neg ht] at hv
  exact hv

theorem all_of_filter (l : List Match) (f g : Match → Bool)
    (h : ∀ m, f m = true → g m = true) : (l.filter f).all g = true := by
  rw [List.all_eq_true]
  intro x hx
  exact h x (List.mem_filter.mp hx).2

theorem all_take {α : Type} (l : List α) (n : Nat) (g : α → Bool)
    (h : l.all g = true) : (l.take n).all g = true := by
  rw [List.all_eq_true] at h ⊢
  intro x hx
  exact h x (List.take_subset n l hx)

theorem head_filter_ok (l : List Match) (f g : Match → Bool)
    (h : ∀ m, f m = true → g m = true) :
    (match (l.filter f).head? with | none => true | some m => g m) = true := by
  cases hf : (l.filter f).head? with
  | none => rfl
  | some a =>
    have ha : a ∈ l.filter f := List.mem_of_mem_head? hf
    exact h a (List.mem_filter.mp ha).2

/-- C6 amended: for every NON-ADMIN user context whose team name is non-empty
after trimming, each of `list_matches`, `list_matches_by_season`, `get_match`,
`get_latest_match` and `list_matches_for_team` only returns matches having
that team as home or away club.  (As stated, the claim fails: a non-admin
user with an empty team name can enumerate other teams' matches through
`list_matches_for_team`, which falls back to the caller-supplied team name —
see the counterexample.) -/
theorem nonadmin_queries_restricted_to_team (db : List Match) (ctx : Option UserCtx)
    (lim lim2 mid : Int) (season tn : String)
    (hna : is_admin ctx = false) (ht : pyStrip (user_team_name ctx) ≠ "") :
    ((list_matches db lim ctx).all (team_ok (pyStrip (user_team_name ctx))) = true) ∧
    ((list_matches_by_season db season ctx).all (team_ok (pyStrip (user_team_name ctx))) = true) ∧
    (option_team_ok (pyStrip (user_team_name ctx)) (get_match db mid ctx) = true) ∧
    (option_team_ok (pyStrip (user_team_name ctx)) (get_latest_match db ctx) = true) ∧
    ((list_matches_for_team db tn lim2 ctx).all (team_ok (pyStrip (user_team_name ctx))) = true) := by
  refine ⟨?_, ?_, ?_, ?_, ?_⟩
  · unfold list_matches
    exact all_take _ _ _ (all_of_filter _ _ _ (fun m hv => visible_team_ok ctx m hna ht hv))
  · unfold list_matches_by_season
    refine all_of_filter _ _ _ (fun m hv => ?_)
    rw [Bool.and_eq_true] at hv
    exact visible_team_ok ctx m hna ht hv.2
  · unfold get_match option_team_ok
    refine head_filter_ok _ _ _ (fun m hv => ?_)
    rw [Bool.and_eq_true] at hv
    exact visible_team_ok ctx m hna ht hv.2
  · unfold get_latest_match option_team_ok
    exact head_filter_ok _ _ _ (fun m hv => visible_team_ok ctx m hna ht hv)
  · unfold list_matches_for_team
    simp only [hna, Bool.not_false, if_true, if_neg ht]
    refine all_take _ _ _ (all_of_filter _ _ _ (fun m hv => ?_))
    exact hv

/-- Witness for C6 amended: team-"A" non-admin user listing matches. -/
theorem nonadmin_queries_restricted_to_team_witness :
    is_admin ctxTeamA = false ∧ pyStrip (user_team_name ctxTeamA) ≠ "" ∧
    ((list_matches [exMatchAB] 50 ctxTeamA).all
      (team_ok (pyStrip (user_team_name ctxTeamA))) = true) :=
  ⟨by decide, by decide,
    (nonadmin_queries_restricted_to_team [exMatchAB] ctxTeamA 50 100 1 "2025" "B"
      (by decide) (by decide)).1⟩

theorem find_map_rename (db : List Player) (pid : Int) (s : String) :
    ∀ p, db.find? (fun q => q.id == pid) = some p →
      (db.map (fun q => if q.id == p.id then { q with name := s } else q)).find?
        (fun q => q.id == pid) = some { p with name := s } := by
  induction db with
  | nil =>
    intro p hp
    simp at hp
  | cons a t ih =>
    intro p hp
    have hpid : (p.id == pid) = true := by
      have h0 := List.find?_some hp
      simpa using h0
    rw [List.map_cons]
    by_cases h : (a.id == pid) = true
    · have hfind : List.find? (fun q => q.id == pid) (a :: t) = some a := by
        apply List.find?_cons_of_pos
        exact h
      have ha : a = p := by
        rw [hfind] at hp
        exact Option.some.inj hp
      subst ha
      rw [if_pos (beq_self_eq_true a.id)]
      apply List.find?_cons_of_pos
      simpa using h
    · have hskip : List.find? (fun q => q.id == pid) (a :: t) =
          List.find? (fun q => q.id == pid) t := by
        apply List.find?_cons_of_neg
        simpa using h
      have hp2 : t.find? (fun q => q.id == pid) = some p := by
        rwa [hskip] at hp
      have hne : (a.id == p.id) = false := by
        have hpe : p.id = pid := by simpa using hpid
        rw [hpe]
        simpa using h
      rw [if_neg (by simp [hne])]
      have hskip2 : List.find? (fun q => q.id == pid)
          (a :: t.map (fun q => if q.id == p.id then { q with name := s } else q)) =
          List.find? (fun q => q.id == pid)
            (t.map (fun q => if q.id == p.id then { q with name := s } else q)) := by
        apply List.find?_cons_of_neg
        simpa using h
      rw [hskip2]
      exact ih p hp2

/-- C10: an authorized `rename_player` call returns False with the database
unchanged (the transaction rolls back) when the new name collides with the
(club, name) unique constraint; with no collision it returns True and the
renamed record is persisted. -/
theorem rename_player_integrity (db : List Player) (pid : Int) (nn : Option String)
    (ctx : Option UserCtx) (p : Player) (s : String)
    (hs : safe_str nn 80 = some s)
    (hp : db.find? (fun q => q.id == pid) = some p)
    (hauth : authorized_for_player ctx p = true) :
    (unique_clash db p s = true → rename_player db pid nn ctx = (false, db)) ∧
    (unique_clash db p s = false →
      (rename_player db pid nn ctx).1 = true ∧
      (rename_player db pid nn ctx).2.find? (fun q => q.id == pid) =
        some { p with name := s }) := by
  constructor
  · intro hclash
    simp only [rename_player, hs, hp]
    simp [hauth, hclash]
  · intro hclash
    constructor
    · simp only [rename_player, hs, hp]
      simp [hauth, hclash]
    · simp only [rename_player, hs, hp]
      simp only [hauth, Bool.not_true, Bool.false_eq_true, if_false, hclash]
      exact find_map_rename db pid s p hp

/-- Two players of club "C": renaming one onto the other's name must clash. -/
def dbPlayers : List Player :=
  [{ id := 1, name := "X", club := "C", active := true },
   { id := 2, name := "Y", club := "C", active := true }]

/-- An admin user context. -/
def ctxAdmin : Option UserCtx := some { is_admin := true, team_name := none }

/-- Witness for C10: renaming player 1 to the already-taken name "Y" fails and
leaves the database unchanged. -/
theorem rename_player_integrity_witness :
    rename_player dbPlayers 1 (some "Y") ctxAdmin = (false, dbPlayers) :=
  (rename_player_integrity dbPlayers 1 (some "Y") ctxAdmin
    { id := 1, name := "X", club := "C", active := true } "Y"
    (by decide) (by decide) (by decide)).1 (by decide)

end FootyScore
